import Mathlib

/-!
Shallow embedding of the realtime notification and private-chat core of the
AuraCipher/ai-lock-screen repository, translated from
`src/components/Chat.tsx` (fetchPrivateMessages, subscribeToMessages,
handleSendMessage, toggleChatLock) and `src/components/Dashboard.tsx`
(fetchNotifications).

Conventions of the embedding:
* `created_at` timestamps (ISO strings compared via `Date.getTime()` and SQL
  `order by created_at`) are modelled as `Nat`.
* The supabase database is modelled as a `DB` record of table rows; a query
  is a pure function over it, an update is a function `DB → DB`.
* React `useState` cells (`messages`, `newMessage`) are passed and returned
  explicitly.
* The server-side realtime channel filter `recipient_id=eq.<selfId>` and the
  client handler are modelled separately (`realtimeDeliver` wraps
  `subscribeHandler`).
* Display-only joined fields (the embedded `profiles` object on a fetched
  message: avatar_url, custom_chat_name) are omitted: no control flow of the
  core reads them.
-/

/-- A row of the `messages` table (interface `Message` in `Chat.tsx` plus the
`is_private`/`is_read` columns the queries read). -/
structure Message where
  id : String
  content : String
  user_id : String
  recipient_id : String
  created_at : Nat
  is_locked : Bool
  is_private : Bool
  is_read : Bool
deriving DecidableEq

/-- A row of the `profiles` table (interface `Profile` in `Chat.tsx` plus the
`chat_password` column written by `toggleChatLock`). -/
structure Profile where
  id : String
  username : String
  chat_locked : Bool
  chat_locker_enabled : Bool
  chat_locker_password : Option String
  chat_password : Option String
deriving DecidableEq

/-- A row of the `friends` table as read by `fetchNotifications`. -/
structure FriendRow where
  id : String
  user_id : String
  friend_id : String
  status : String
  created_at : Nat
deriving DecidableEq

/-- The backing store: the three tables the chat/notification core touches. -/
structure DB where
  messages : List Message
  profiles : List Profile
  friends : List FriendRow
deriving DecidableEq

/-- Kind tag of a dashboard notification (`type: 'friend_request' | 'message'`). -/
inductive NotifKind
  | friend_request
  | message
deriving DecidableEq

/-- A dashboard notification (interface `Notification` in `Dashboard.tsx`);
the sender is kept as the joined row's user id, `content` is the revealed
message preview (absent for friend requests). -/
structure Notification where
  id : String
  kind : NotifKind
  sender_id : String
  content : Option String
  created_at : Nat
deriving DecidableEq

/-- Ascending `created_at` order on messages: the server-side
`order('created_at', { ascending: true })` of `fetchPrivateMessages`. -/
def msgAsc (a b : Message) : Prop := a.created_at ≤ b.created_at

instance : DecidableRel msgAsc := fun a b =>
  inferInstanceAs (Decidable (a.created_at ≤ b.created_at))

instance : IsTotal Message msgAsc := ⟨fun a b => Nat.le_total a.created_at b.created_at⟩

instance : IsTrans Message msgAsc := ⟨fun _ _ _ => Nat.le_trans⟩

/-- Descending `created_at` order on notifications: the comparator
`(a, b) => new Date(b.created_at).getTime() - new Date(a.created_at).getTime()`
of `fetchNotifications`. -/
def notifDesc (a b : Notification) : Prop := b.created_at ≤ a.created_at

instance : DecidableRel notifDesc := fun a b =>
  inferInstanceAs (Decidable (b.created_at ≤ a.created_at))

instance : IsTotal Notification notifDesc := ⟨fun a b => Nat.le_total b.created_at a.created_at⟩

instance : IsTrans Notification notifDesc := ⟨fun _ _ _ h h' => Nat.le_trans h' h⟩

/-- `.single()` lookup of a profile row by id. -/
def lookupProfile (db : DB) (userId : String) : Option Profile :=
  db.profiles.find? (fun p => p.id == userId)

/-- The truthiness of `profile?.chat_locked` for the current user. -/
def chatLockedOf (db : DB) (userId : String) : Bool :=
  ((lookupProfile db userId).map (·.chat_locked)).getD false

/-- `Dashboard.tsx` `fetchNotifications`: pending friend requests directed at
`selfId` and unread messages addressed to `selfId`, mapped to notifications
and sorted descending by `created_at`. -/
def fetchNotifications (db : DB) (selfId : String) : List Notification :=
  let friendRequests := db.friends.filter
    (fun r => r.friend_id == selfId && r.status == "pending")
  let unreadMessages := db.messages.filter
    (fun m => m.recipient_id == selfId && !m.is_read)
  List.insertionSort notifDesc
    (friendRequests.map (fun r =>
        { id := r.id, kind := NotifKind.friend_request, sender_id := r.user_id,
          content := none, created_at := r.created_at }) ++
     unreadMessages.map (fun m =>
        { id := m.id, kind := NotifKind.message, sender_id := m.user_id,
          content := some m.content, created_at := m.created_at }))

/-- The `.or(and(user_id.eq.self,recipient_id.eq.peer),and(user_id.eq.peer,recipient_id.eq.self)).eq('is_private', true)`
row filter of `fetchPrivateMessages`. -/
def conversationFilter (selfId peer : String) (m : Message) : Bool :=
  ((m.user_id == selfId && m.recipient_id == peer) ||
   (m.user_id == peer && m.recipient_id == selfId)) && m.is_private

/-- The batched `.update({ is_read: true }).in('id', ids)` write. -/
def markReadByIds (ids : List String) (db : DB) : DB :=
  { db with messages :=
      db.messages.map (fun m => if ids.contains m.id then { m with is_read := true } else m) }

/-- Result of opening a conversation (`fetchPrivateMessages`): the new visible
message list, the database after the read-state write, and the list of batch
update calls issued (each call carries the ids it updates). -/
structure OpenResult where
  view : List Message
  db : DB
  updateCalls : List (List String)
deriving DecidableEq

/-- `Chat.tsx` `fetchPrivateMessages`: guard on a selected peer, fetch the
private conversation sorted ascending by `created_at`, display it, and mark
the unread incoming messages read with one batched update. -/
def fetchPrivateMessages (selfId : String) (selectedUser : Option String)
    (view : List Message) (db : DB) : OpenResult :=
  match selectedUser with
  | none => ⟨view, db, []⟩
  | some peer =>
    let data := List.insertionSort msgAsc
      (db.messages.filter (conversationFilter selfId peer))
    let unread := data.filter (fun m => m.recipient_id == selfId && !m.is_read)
    if unread.isEmpty then ⟨data, db, []⟩
    else ⟨data, markReadByIds (unread.map (·.id)) db, [unread.map (·.id)]⟩

/-- The guard of the realtime INSERT handler in `subscribeToMessages`:
`newMsg.is_private && ((user_id === self && recipient_id === selectedUser) ||
(user_id === selectedUser && recipient_id === self))`. -/
def matchesConversation (selfId : String) (selectedUser : Option String)
    (m : Message) : Bool :=
  m.is_private &&
    ((m.user_id == selfId && some m.recipient_id == selectedUser) ||
     (some m.user_id == selectedUser && m.recipient_id == selfId))

/-- The client-side handler of `subscribeToMessages`: append the payload to
the visible list when it matches the open conversation, else ignore it. -/
def subscribeHandler (selfId : String) (selectedUser : Option String)
    (view : List Message) (m : Message) : List Message :=
  if matchesConversation selfId selectedUser m then view ++ [m] else view

/-- A realtime INSERT delivery: the channel's server-side filter
`recipient_id=eq.<selfId>` composed with the client handler. -/
def realtimeDeliver (selfId : String) (selectedUser : Option String)
    (view : List Message) (m : Message) : List Message :=
  if m.recipient_id == selfId then subscribeHandler selfId selectedUser view m
  else view

/-- The truthiness of `!newMessage.trim()`: the draft trims to the empty
string exactly when every character is whitespace. -/
def blankDraft (s : String) : Bool := s.toList.all Char.isWhitespace

/-- The toast text of the self-lock send rejection. -/
def chatLockedError : String := "Your chat is locked. Please unlock it in settings first."

/-- Result of a send attempt (`handleSendMessage`): the visible message list,
the draft input state, the database, and the error toast if one was shown. -/
structure SendResult where
  view : List Message
  draft : String
  db : DB
  toastError : Option String
deriving DecidableEq

/-- `Chat.tsx` `handleSendMessage`: no-op when the draft is blank or no peer
is selected; reject with a toast when the sender's own profile has
`chat_locked`; otherwise insert the row (server id `serverId`) and append a
local optimistic copy under the client-generated `uuid`. -/
def handleSendMessage (selfId : String) (selectedUser : Option String)
    (draft : String) (view : List Message) (db : DB)
    (uuid serverId : String) (now : Nat) : SendResult :=
  match selectedUser with
  | none => ⟨view, draft, db, none⟩
  | some peer =>
    if blankDraft draft then ⟨view, draft, db, none⟩
    else if chatLockedOf db selfId then ⟨view, draft, db, some chatLockedError⟩
    else
      let newMsg : Message :=
        { id := serverId, content := draft, user_id := selfId,
          recipient_id := peer, created_at := now,
          is_locked := chatLockedOf db selfId, is_private := true,
          is_read := false }
      { view := view ++ [{ newMsg with id := uuid }],
        draft := "",
        db := { db with messages := db.messages ++ [newMsg] },
        toastError := none }

/-- The toast outcome of `toggleChatLock`. -/
inductive ToggleOutcome
  | movedToLocker
  | movedToNormal
  | lockerNotEnabled
  | noProfile
deriving DecidableEq

/-- `.update(...).eq('id', userId)` on the `profiles` table. -/
def updateProfileRow (db : DB) (userId : String) (f : Profile → Profile) : DB :=
  { db with profiles :=
      db.profiles.map (fun p => if p.id == userId then f p else p) }

/-- `Chat.tsx` `toggleChatLock`: lock when the locker is enabled and the chat
is not locked (copying the locker password into `chat_password`), unlock
unconditionally when locked (clearing `chat_password`), otherwise report that
the locker is not enabled. -/
def toggleChatLock (userId : String) (db : DB) : DB × ToggleOutcome :=
  match lookupProfile db userId with
  | none => (db, ToggleOutcome.noProfile)
  | some profile =>
    if profile.chat_locker_enabled && !profile.chat_locked then
      (updateProfileRow db userId
        (fun p => { p with chat_locked := true,
                           chat_password := profile.chat_locker_password }),
       ToggleOutcome.movedToLocker)
    else if profile.chat_locked then
      (updateProfileRow db userId
        (fun p => { p with chat_locked := false, chat_password := none }),
       ToggleOutcome.movedToNormal)
    else (db, ToggleOutcome.lockerNotEnabled)

/-- Unread count of the private conversation between `selfId` and `peer`,
derived from the store as the code derives it (incoming, not yet read). -/
def convUnreadCount (db : DB) (selfId peer : String) : Nat :=
  (db.messages.filter (fun m =>
    conversationFilter selfId peer m && m.recipient_id == selfId && !m.is_read)).length

/-! ### Concrete fixtures used by counterexamples and witnesses -/

/-- An unread private message from "peer" addressed to "self". -/
def exMsg : Message :=
  { id := "m1", content := "hello", user_id := "peer", recipient_id := "self",
    created_at := 10, is_locked := false, is_private := true, is_read := false }

/-- The profile of "self": locker enabled, locker password set, chat locked. -/
def exLockedProfile : Profile :=
  { id := "self", username := "selfname", chat_locked := true,
    chat_locker_enabled := true, chat_locker_password := some "pw",
    chat_password := some "pw" }

/-- A database holding the locked "self" profile and one unread incoming message. -/
def exLockedDB : DB := ⟨[exMsg], [exLockedProfile], []⟩

/-- An entirely empty database. -/
def emptyDB : DB := ⟨[], [], []⟩

/-! ### Claim theorems -/

/-- C2: while the sender's own profile has `chat_locked`, a send attempt with a
nonblank draft and a selected peer is rejected with the chat-locked toast; the
visible list, the draft and the database are unchanged, so no message is
appended to the store or persisted. -/
theorem sendWhileLockedRejected (selfId peer draft : String) (view : List Message)
    (db : DB) (uuid serverId : String) (now : Nat)
    (hdraft : blankDraft draft = false)
    (hlock : chatLockedOf db selfId = true) :
    handleSendMessage selfId (some peer) draft view db uuid serverId now =
      ⟨view, draft, db, some chatLockedError⟩ := by
  simp [handleSendMessage, hdraft, hlock]

/-- Witness for C2 at a concrete locked database. -/
theorem sendWhileLockedRejected_witness :
    handleSendMessage "self" (some "peer") "hi" [] exLockedDB "u1" "s1" 5 =
      ⟨[], "hi", exLockedDB, some chatLockedError⟩ :=
  sendWhileLockedRejected "self" "peer" "hi" [] exLockedDB "u1" "s1" 5
    (by decide) (by decide)

/-- C10: when the draft is blank (empty or whitespace-only) or no peer is
selected, the send operation is a complete no-op: same view, same draft, same
database (no insert), no toast. -/
theorem sendNoopOnBlankOrNoPeer (selfId draft : String) (selectedUser : Option String)
    (view : List Message) (db : DB) (uuid serverId : String) (now : Nat)
    (h : blankDraft draft = true ∨ selectedUser = none) :
    handleSendMessage selfId selectedUser draft view db uuid serverId now =
      ⟨view, draft, db, none⟩ := by
  cases selectedUser with
  | none => rfl
  | some peer =>
    rcases h with h | h
    · simp [handleSendMessage, h]
    · exact absurd h (by simp)

/-- Witness for C10 at a whitespace-only draft. -/
theorem sendNoopOnBlankOrNoPeer_witness :
    handleSendMessage "self" (some "peer") "  " [] exLockedDB "u1" "s1" 5 =
      ⟨[], "  ", exLockedDB, none⟩ :=
  sendNoopOnBlankOrNoPeer "self" "  " (some "peer") [] exLockedDB "u1" "s1" 5
    (Or.inl (by decide))

/-- C9: the realtime handler either drops the event (view unchanged) or appends
exactly that message at the end of the visible list, and in the append case the
message is private and its sender/recipient pair is exactly the self user and
the selected peer. -/
theorem subscribeHandlerAppendsOnlyConversation (selfId : String)
    (selectedUser : Option String) (view : List Message) (m : Message) :
    subscribeHandler selfId selectedUser view m = view ∨
      (subscribeHandler selfId selectedUser view m = view ++ [m] ∧
        m.is_private = true ∧
        ((m.user_id = selfId ∧ some m.recipient_id = selectedUser) ∨
         (some m.user_id = selectedUser ∧ m.recipient_id = selfId))) := by
  rcases hm : matchesConversation selfId selectedUser m with _ | _
  · left
    simp [subscribeHandler, hm]
  · right
    refine ⟨by simp [subscribeHandler, hm], ?_⟩
    unfold matchesConversation at hm
    simpa using hm

/-- Counterexample for C3: the id "m1" is already present in the view, yet the
realtime delivery appends a second copy, changing the stored list. -/
theorem duplicateEventAppended_cex :
    realtimeDeliver "self" (some "peer") [exMsg] exMsg = [exMsg, exMsg] ∧
      [exMsg, exMsg] ≠ [exMsg] := by decide

/-- C3 amended: the realtime handler performs no id-based deduplication —
applying the same matching `MessageCreated` event twice appends two copies of
the message to the store. -/
theorem duplicateEventAppendsTwice (selfId : String) (selectedUser : Option String)
    (view : List Message) (m : Message)
    (h : matchesConversation selfId selectedUser m = true) :
    subscribeHandler selfId selectedUser (subscribeHandler selfId selectedUser view m) m =
      view ++ [m, m] := by
  simp [subscribeHandler, h]

/-- Witness for the amended C3 at a concrete message. -/
theorem duplicateEventAppendsTwice_witness :
    subscribeHandler "self" (some "peer") (subscribeHandler "self" (some "peer") [] exMsg) exMsg =
      [] ++ [exMsg, exMsg] :=
  duplicateEventAppendsTwice "self" (some "peer") [] exMsg (by decide)

/-- A private message from "peer" to "self" with `created_at` 3. -/
def msgT3 : Message :=
  { id := "t3", content := "x", user_id := "peer", recipient_id := "self",
    created_at := 3, is_locked := false, is_private := true, is_read := false }

/-- A private message from "peer" to "self" with `created_at` 1. -/
def msgT1 : Message :=
  { id := "t1", content := "y", user_id := "peer", recipient_id := "self",
    created_at := 1, is_locked := false, is_private := true, is_read := false }

/-- A private message from "peer" to "self" with `created_at` 2. -/
def msgT2 : Message :=
  { id := "t2", content := "z", user_id := "peer", recipient_id := "self",
    created_at := 2, is_locked := false, is_private := true, is_read := false }

/-- Counterexample for C4: delivering messages with `created_at` [3,1,2] in
that arrival order displays them as [3,1,2], not as the ascending [1,2,3]. -/
theorem arrivalOrderNotResorted_cex :
    (realtimeDeliver "self" (some "peer")
        (realtimeDeliver "self" (some "peer")
          (realtimeDeliver "self" (some "peer") [] msgT3) msgT1) msgT2).map
      (fun m => m.created_at) = [3, 1, 2] ∧ ([3, 1, 2] : List Nat) ≠ [1, 2, 3] := by
  decide

/-- The view produced by opening a conversation is the filtered conversation
sorted ascending by `created_at`, in both the read-marking and the no-unread
branch. -/
theorem fetchPrivateMessages_view (selfId peer : String) (view : List Message) (db : DB) :
    (fetchPrivateMessages selfId (some peer) view db).view =
      List.insertionSort msgAsc (db.messages.filter (conversationFilter selfId peer)) := by
  unfold fetchPrivateMessages
  dsimp only
  split <;> rfl

/-- C4 amended: the initial fetch displays the conversation sorted ascending by
`created_at`, but a matching realtime arrival is appended at the end of the
view in arrival order — a late-arriving older message is not inserted at its
ascending position. -/
theorem displayOrderFetchSortedRealtimeAppended (selfId peer : String)
    (view : List Message) (db : DB) (m : Message)
    (h : matchesConversation selfId (some peer) m = true) :
    List.Sorted msgAsc (fetchPrivateMessages selfId (some peer) view db).view ∧
      subscribeHandler selfId (some peer) view m = view ++ [m] := by
  constructor
  · rw [fetchPrivateMessages_view]
    exact List.sorted_insertionSort msgAsc _
  · simp [subscribeHandler, h]

/-- A database holding the three timestamp-scrambled messages. -/
def exOrderDB : DB := ⟨[msgT3, msgT1, msgT2], [], []⟩

/-- Witness for the amended C4 at a concrete database and message. -/
theorem displayOrderFetchSortedRealtimeAppended_witness :
    List.Sorted msgAsc (fetchPrivateMessages "self" (some "peer") [] exOrderDB).view ∧
      subscribeHandler "self" (some "peer") [] msgT1 = [] ++ [msgT1] :=
  displayOrderFetchSortedRealtimeAppended "self" "peer" [] exOrderDB msgT1 (by decide)

/-- Counterexample for C1: the recipient "self" is account-locked, yet the
unread message still yields a notification revealing the payload "hello". -/
theorem lockedNotificationLeak_cex :
    chatLockedOf exLockedDB "self" = true ∧
      fetchNotifications exLockedDB "self" =
        [{ id := "m1", kind := NotifKind.message, sender_id := "peer",
           content := some "hello", created_at := 10 }] := by decide

/-- C1 amended: the notification aggregation ignores the lock state — even when
the recipient's account lock state is `Locked`, an unread message addressed to
them yields a notification revealing its content; the message itself remains
stored and is returned by the conversation-history read. -/
theorem lockedMessageStillNotifiedAndStored (db : DB) (selfId : String) (m : Message)
    (hm : m ∈ db.messages) (hrec : m.recipient_id = selfId) (hunread : m.is_read = false)
    (hpriv : m.is_private = true) (hlock : chatLockedOf db selfId = true) :
    ({ id := m.id, kind := NotifKind.message, sender_id := m.user_id,
       content := some m.content, created_at := m.created_at } : Notification) ∈
        fetchNotifications db selfId ∧
      ∀ view, m ∈ (fetchPrivateMessages selfId (some m.user_id) view db).view := by
  constructor
  · unfold fetchNotifications
    rw [List.mem_insertionSort, List.mem_append]
    right
    rw [List.mem_map]
    refine ⟨m, ?_, rfl⟩
    rw [List.mem_filter]
    simp [hm, hrec, hunread]
  · intro view
    rw [fetchPrivateMessages_view, List.mem_insertionSort, List.mem_filter]
    refine ⟨hm, ?_⟩
    simp [conversationFilter, hrec, hpriv]

/-- Witness for the amended C1 at the concrete locked database. -/
theorem lockedMessageStillNotifiedAndStored_witness :
    ({ id := "m1", kind := NotifKind.message, sender_id := "peer",
       content := some "hello", created_at := 10 } : Notification) ∈
        fetchNotifications exLockedDB "self" ∧
      exMsg ∈ (fetchPrivateMessages "self" (some "peer") [] exLockedDB).view :=
  ⟨(lockedMessageStillNotifiedAndStored exLockedDB "self" exMsg (by decide) rfl rfl rfl
      (by decide)).1,
   (lockedMessageStillNotifiedAndStored exLockedDB "self" exMsg (by decide) rfl rfl rfl
      (by decide)).2 []⟩

/-- Fifty-one unread private messages addressed to "self". -/
def unreadFlood : List Message :=
  (List.range 51).map (fun i =>
    { id := "m", content := "x", user_id := "peer", recipient_id := "self",
      created_at := i, is_locked := false, is_private := true, is_read := false })

/-- A database holding the fifty-one unread messages. -/
def floodDB : DB := ⟨unreadFlood, [], []⟩

/-- Counterexample for C7: fifty-one unread messages produce a notification
list of length 51, exceeding the nominal cap of 50. -/
theorem notificationFlood_cex :
    50 < (fetchNotifications floodDB "self").length := by decide

/-- C7 amended: the notification list is not capped and no eviction exists: its
length always equals the number of pending friend requests plus the number of
unread messages addressed to the user. -/
theorem notificationListUncapped (db : DB) (selfId : String) :
    (fetchNotifications db selfId).length =
      (db.friends.filter (fun r => r.friend_id == selfId && r.status == "pending")).length +
        (db.messages.filter (fun m => m.recipient_id == selfId && !m.is_read)).length := by
  unfold fetchNotifications
  rw [(List.perm_insertionSort notifDesc _).length_eq, List.length_append,
    List.length_map, List.length_map]

/-- Counterexample for C5: the profile is locked and no ownership verification
of any kind is performed, yet the toggle succeeds and changes the lock state
to unlocked instead of failing. -/
theorem unlockWithoutVerification_cex :
    (toggleChatLock "self" exLockedDB).2 = ToggleOutcome.movedToNormal ∧
      chatLockedOf (toggleChatLock "self" exLockedDB).1 "self" = false := by decide

/-- Looking up the row a `.update(...).eq('id', userId)` targeted yields the
updated row, provided the update does not change the id column. -/
theorem lookupProfile_updateProfileRow (db : DB) (userId : String) (f : Profile → Profile)
    (hf : ∀ p, (f p).id = p.id) :
    lookupProfile (updateProfileRow db userId f) userId = (lookupProfile db userId).map f := by
  unfold lookupProfile updateProfileRow
  dsimp only
  induction db.profiles with
  | nil => rfl
  | cons a l ih =>
    by_cases ha : (a.id == userId) = true
    · rw [List.map_cons, if_pos ha, List.find?_cons, List.find?_cons, hf, ha]
      rfl
    · have ha' : (a.id == userId) = false := by
        revert ha
        cases a.id == userId <;> simp
      rw [List.map_cons, if_neg ha, List.find?_cons, List.find?_cons, ha']
      exact ih

/-- C5 amended: requesting a lock while the chat locker is not enabled fails
with the locker-not-enabled error and leaves the database unchanged, but
unlocking requires no prior ownership verification: whenever the profile is
locked the toggle succeeds, clearing `chat_locked` and `chat_password`. -/
theorem toggleChatLockGuards (userId : String) (db : DB) (p : Profile)
    (hp : lookupProfile db userId = some p) :
    (p.chat_locker_enabled = false → p.chat_locked = false →
        toggleChatLock userId db = (db, ToggleOutcome.lockerNotEnabled)) ∧
      (p.chat_locked = true →
        (toggleChatLock userId db).2 = ToggleOutcome.movedToNormal ∧
          lookupProfile (toggleChatLock userId db).1 userId =
            some { p with chat_locked := false, chat_password := none }) := by
  constructor
  · intro h1 h2
    simp [toggleChatLock, hp, h1, h2]
  · intro h
    have h1 : (toggleChatLock userId db).1 =
        updateProfileRow db userId
          (fun q => { q with chat_locked := false, chat_password := none }) := by
      simp [toggleChatLock, hp, h]
    have h2 : (toggleChatLock userId db).2 = ToggleOutcome.movedToNormal := by
      simp [toggleChatLock, hp, h]
    refine ⟨h2, ?_⟩
    rw [h1, lookupProfile_updateProfileRow db userId
        (fun q => { q with chat_locked := false, chat_password := none })
        (fun q => rfl), hp]
    rfl

/-- Witness for the amended C5: unlocking the concrete locked profile. -/
theorem toggleChatLockGuards_witness :
    (toggleChatLock "self" exLockedDB).2 = ToggleOutcome.movedToNormal ∧
      lookupProfile (toggleChatLock "self" exLockedDB).1 "self" =
        some { exLockedProfile with chat_locked := false, chat_password := none } :=
  (toggleChatLockGuards "self" exLockedDB exLockedProfile (by decide)).2 rfl

/-- C8: an unblocked optimistic send appends exactly one local message to the
view, and — the peer being a user other than self — the matching server echo,
addressed to the peer, is rejected by the channel's `recipient_id=eq.self`
filter and never appended: across send plus echo exactly one visible message
results, not two. -/
theorem optimisticSendEchoOnce (selfId peer draft : String) (view : List Message)
    (db : DB) (uuid serverId : String) (now : Nat) (echo : Message)
    (hdraft : blankDraft draft = false) (hlock : chatLockedOf db selfId = false)
    (hpeer : peer ≠ selfId) (hecho : echo.recipient_id = peer) :
    (handleSendMessage selfId (some peer) draft view db uuid serverId now).view =
        view ++ [{ id := uuid, content := draft, user_id := selfId, recipient_id := peer,
                   created_at := now, is_locked := false, is_private := true,
                   is_read := false }] ∧
      realtimeDeliver selfId (some peer)
          (handleSendMessage selfId (some peer) draft view db uuid serverId now).view echo =
        (handleSendMessage selfId (some peer) draft view db uuid serverId now).view := by
  constructor
  · simp [handleSendMessage, hdraft, hlock]
  · unfold realtimeDeliver
    rw [hecho, beq_false_of_ne hpeer]
    simp

/-- The server echo of the concrete optimistic send: the persisted row under
its server id, addressed to the peer. -/
def echoMsg : Message :=
  { id := "s1", content := "hi", user_id := "self", recipient_id := "peer",
    created_at := 5, is_locked := false, is_private := true, is_read := false }

/-- Witness for C8 at a concrete send and its echo. -/
theorem optimisticSendEchoOnce_witness :
    (handleSendMessage "self" (some "peer") "hi" [] emptyDB "u1" "s1" 5).view =
        [] ++ [{ id := "u1", content := "hi", user_id := "self", recipient_id := "peer",
                 created_at := 5, is_locked := false, is_private := true,
                 is_read := false }] ∧
      realtimeDeliver "self" (some "peer")
          (handleSendMessage "self" (some "peer") "hi" [] emptyDB "u1" "s1" 5).view echoMsg =
        (handleSendMessage "self" (some "peer") "hi" [] emptyDB "u1" "s1" 5).view :=
  optimisticSendEchoOnce "self" "peer" "hi" [] emptyDB "u1" "s1" 5 echoMsg
    (by decide) (by decide) (by decide) rfl

/-- A stored conversation message addressed to the self user and not yet read
belongs to the unread set computed when that conversation is opened. -/
theorem mem_unread_of_conversation {selfId peer : String} {db : DB} {m : Message}
    (hm : m ∈ db.messages) (hconv : conversationFilter selfId peer m = true)
    (hrec : m.recipient_id = selfId) (hunread : m.is_read = false) :
    m ∈ (List.insertionSort msgAsc (db.messages.filter (conversationFilter selfId peer))).filter
        (fun x => x.recipient_id == selfId && !x.is_read) := by
  rw [List.mem_filter, List.mem_insertionSort, List.mem_filter]
  refine ⟨⟨hm, hconv⟩, ?_⟩
  simp [hrec, hunread]

/-- After opening the conversation with `peer`, every stored message of that
conversation addressed to the self user carries `is_read = true`. -/
theorem conversation_read_after_open (selfId peer : String) (view : List Message) (db : DB)
    (m' : Message)
    (hm' : m' ∈ (fetchPrivateMessages selfId (some peer) view db).db.messages)
    (hconv : conversationFilter selfId peer m' = true)
    (hrec : m'.recipient_id = selfId) : m'.is_read = true := by
  unfold fetchPrivateMessages at hm'
  dsimp only at hm'
  split at hm'
  case isTrue hemp =>
    by_contra hread
    have hunread : m'.is_read = false := by
      revert hread
      cases m'.is_read <;> simp
    have hmem := mem_unread_of_conversation hm' hconv hrec hunread
    rw [List.isEmpty_iff.mp hemp] at hmem
    exact List.not_mem_nil m' hmem
  case isFalse hemp =>
    have hm2 : m' ∈ (markReadByIds
        (((List.insertionSort msgAsc
            (db.messages.filter (conversationFilter selfId peer))).filter
          (fun x => x.recipient_id == selfId && !x.is_read)).map (·.id)) db).messages := hm'
    unfold markReadByIds at hm2
    dsimp only at hm2
    rcases List.mem_map.mp hm2 with ⟨m, hm, hmk⟩
    by_cases hc : ((((List.insertionSort msgAsc
        (db.messages.filter (conversationFilter selfId peer))).filter
          (fun x => x.recipient_id == selfId && !x.is_read)).map (·.id)).contains m.id) = true
    · rw [if_pos hc] at hmk
      rw [← hmk]
    · rw [if_neg hc] at hmk
      subst hmk
      by_contra hread
      have hunread : m.is_read = false := by
        revert hread
        cases m.is_read <;> simp
      have hmem := mem_unread_of_conversation hm hconv hrec hunread
      have hid := List.mem_map_of_mem (fun x : Message => x.id) hmem
      exact hc (List.elem_eq_true_of_mem hid)

/-- Every message row stored after an open is a row of the original database,
possibly with its `is_read` flag set. -/
theorem source_message_after_open (selfId peer : String) (view : List Message) (db : DB)
    (m' : Message)
    (hm' : m' ∈ (fetchPrivateMessages selfId (some peer) view db).db.messages) :
    ∃ m ∈ db.messages, m' = m ∨ m' = { m with is_read := true } := by
  unfold fetchPrivateMessages at hm'
  dsimp only at hm'
  split at hm'
  · exact ⟨m', hm', Or.inl rfl⟩
  · unfold markReadByIds at hm'
    dsimp only at hm'
    rcases List.mem_map.mp hm' with ⟨m, hm, hmk⟩
    refine ⟨m, hm, ?_⟩
    by_cases hc : ((((List.insertionSort msgAsc
        (db.messages.filter (conversationFilter selfId peer))).filter
          (fun x => x.recipient_id == selfId && !x.is_read)).map (·.id)).contains m.id) = true
    · right
      rw [if_pos hc] at hmk
      exact hmk.symm
    · left
      rw [if_neg hc] at hmk
      exact hmk.symm

/-- Opening a conversation issues at most one batched read-state update call. -/
theorem fetchPrivateMessages_updateCalls_le_one (selfId : String)
    (selectedUser : Option String) (view : List Message) (db : DB) :
    (fetchPrivateMessages selfId selectedUser view db).updateCalls.length ≤ 1 := by
  unfold fetchPrivateMessages
  cases selectedUser with
  | none => simp
  | some peer =>
    dsimp only
    split <;> simp

/-- C6: opening a conversation with unread messages issues at most one batched
read-state update (one call for the whole set, not one per message); afterwards
the conversation's unread count is 0 and — provided every stored message the
peer addressed to the self user is private, as every send in the code is — no
message-kind notification from that peer survives a rebuild of the
notification list. -/
theorem openConversationReadCoupling (selfId peer : String) (view : List Message) (db : DB)
    (hpriv : ∀ m ∈ db.messages, m.user_id = peer → m.recipient_id = selfId →
      m.is_private = true) :
    (fetchPrivateMessages selfId (some peer) view db).updateCalls.length ≤ 1 ∧
      convUnreadCount (fetchPrivateMessages selfId (some peer) view db).db selfId peer = 0 ∧
      ∀ n ∈ fetchNotifications (fetchPrivateMessages selfId (some peer) view db).db selfId,
        n.kind = NotifKind.message → n.sender_id ≠ peer := by
  refine ⟨fetchPrivateMessages_updateCalls_le_one selfId (some peer) view db, ?_, ?_⟩
  · unfold convUnreadCount
    rw [List.length_eq_zero, List.filter_eq_nil_iff]
    intro m' hm' hq
    simp only [Bool.and_eq_true, beq_iff_eq, Bool.not_eq_true'] at hq
    obtain ⟨⟨hconv, hrec⟩, hread⟩ := hq
    have hro := conversation_read_after_open selfId peer view db m' hm' hconv hrec
    rw [hro] at hread
    exact Bool.noConfusion hread
  · intro n hn hkind
    unfold fetchNotifications at hn
    dsimp only at hn
    rw [List.mem_insertionSort, List.mem_append] at hn
    rcases hn with hn | hn
    · rcases List.mem_map.mp hn with ⟨r, hr, rfl⟩
      exact NotifKind.noConfusion hkind
    · rcases List.mem_map.mp hn with ⟨m', hm', rfl⟩
      intro hsender
      rw [List.mem_filter] at hm'
      obtain ⟨hm'mem, hq⟩ := hm'
      simp only [Bool.and_eq_true, beq_iff_eq, Bool.not_eq_true'] at hq
      obtain ⟨hrec, hread⟩ := hq
      obtain ⟨m, hm, hcase⟩ := source_message_after_open selfId peer view db m' hm'mem
      have hm'm : m' = m := by
        rcases hcase with h | h
        · exact h
        · rw [h] at hread
          exact Bool.noConfusion hread
      rw [← hm'm] at hm
      have hu : m'.user_id = peer := hsender
      have hprivm := hpriv m' hm hu hrec
      have hconv : conversationFilter selfId peer m' = true := by
        simp [conversationFilter, hu, hrec, hprivm]
      have hro := conversation_read_after_open selfId peer view db m' hm'mem hconv hrec
      rw [hro] at hread
      exact Bool.noConfusion hread

/-- Three unread private messages from "peer" addressed to "self". -/
def exUnreadDB : DB :=
  ⟨[{ id := "u1", content := "a", user_id := "peer", recipient_id := "self",
      created_at := 1, is_locked := false, is_private := true, is_read := false },
    { id := "u2", content := "b", user_id := "peer", recipient_id := "self",
      created_at := 2, is_locked := false, is_private := true, is_read := false },
    { id := "u3", content := "c", user_id := "peer", recipient_id := "self",
      created_at := 3, is_locked := false, is_private := true, is_read := false }], [], []⟩

/-- Witness for C6 at a conversation with three unread messages. -/
theorem openConversationReadCoupling_witness :
    (fetchPrivateMessages "self" (some "peer") [] exUnreadDB).updateCalls.length ≤ 1 ∧
      convUnreadCount (fetchPrivateMessages "self" (some "peer") [] exUnreadDB).db
        "self" "peer" = 0 :=
  ⟨(openConversationReadCoupling "self" "peer" [] exUnreadDB (by decide)).1,
   (openConversationReadCoupling "self" "peer" [] exUnreadDB (by decide)).2.1⟩
